import Mathlib

/-!
Verification of the engagement-engine utilities of the lajysocial browser
extension: settings handling, safety limits, duplicate detection, template
generation, the LinkedIn skip filter and the like/comment action flows.

The JavaScript source is shallowly embedded: every class method that a claim
touches becomes a pure Lean function over explicit state.  DOM queries and
randomness are abstracted as explicit inputs (the values the queries returned,
the values the random rolls produced); machine arithmetic (JS 32-bit bitwise
operations) is carried out on `Int` with explicit reduction modulo 2^32.
-/

/- ========== JS primitive helpers ========== -/

/-- Characters matched by the JS regex class `\s` (ASCII portion plus NBSP). -/
def jsIsSpace (c : Char) : Bool :=
  c = ' ' || c = '\t' || c = '\n' || c = '\r' ||
  c = Char.ofNat 11 || c = Char.ofNat 12 || c = Char.ofNat 160

/-- ASCII lower-casing, the fragment of `String.prototype.toLowerCase`
exercised by the engagement code. -/
def jsToLower (c : Char) : Char :=
  if 'A' ≤ c && c ≤ 'Z' then Char.ofNat (c.toNat + 32) else c

/-- Model of `String.prototype.trim`: drop leading and trailing whitespace. -/
def jsTrimList (l : List Char) : List Char :=
  ((l.dropWhile jsIsSpace).reverse.dropWhile jsIsSpace).reverse

def jsTrim (s : String) : String :=
  ⟨jsTrimList s.toList⟩

/-- Model of `text.replace(/\s+/g, ' ')`: each maximal whitespace run becomes one
single space. -/
def collapseWs : List Char → List Char
  | [] => []
  | [c] => if jsIsSpace c then [' '] else [c]
  | c :: d :: rest =>
      if jsIsSpace c then
        if jsIsSpace d then collapseWs (d :: rest)
        else ' ' :: collapseWs (d :: rest)
      else c :: collapseWs (d :: rest)

/-- Does `pat` occur at the head of `l`? -/
def leadsWith : List Char → List Char → Bool
  | [], _ => true
  | _ :: _, [] => false
  | p :: ps, c :: cs => p = c && leadsWith ps cs

/-- Model of `String.prototype.includes` on character lists. -/
def containsSub (pat : List Char) : List Char → Bool
  | [] => pat.isEmpty
  | c :: rest => leadsWith pat (c :: rest) || containsSub pat rest

def jsIncludes (s pat : String) : Bool :=
  containsSub pat.toList s.toList

/-- Fuel-driven core of global literal replacement (`String.replace` with a
`/.../g` literal pattern): scan left to right, replacing each occurrence and
resuming after it. -/
def replaceAllF (pat repl : List Char) : Nat → List Char → List Char
  | 0, l => l
  | _ + 1, [] => []
  | fuel + 1, c :: rest =>
      if pat ≠ [] && leadsWith pat (c :: rest) then
        repl ++ replaceAllF pat repl fuel (List.drop (pat.length - 1) rest)
      else
        c :: replaceAllF pat repl fuel rest

def jsReplaceAll (s pat repl : String) : String :=
  ⟨replaceAllF pat.toList repl.toList s.toList.length s.toList⟩

/-- JS `ToInt32`: reduce an integer into the signed 32-bit range. -/
def toInt32 (n : Int) : Int :=
  (n + 2 ^ 31) % 2 ^ 32 - 2 ^ 31

/- ========== SafetyLimits (engagement-helpers / dom-helpers.js) ========== -/

/-- One hour in milliseconds (`60 * 60 * 1000`). -/
def hourMs : Int := 60 * 60 * 1000

/-- One day in milliseconds (`24 * hourMs`). -/
def dayMs : Int := 24 * hourMs

/-- Fixed cap `commentsPerHour` of `SafetyLimits.limits`. -/
def commentsPerHour : Nat := 10

/-- Fixed cap `commentsPerDay` of `SafetyLimits.limits`. -/
def commentsPerDay : Nat := 50

/-- Fixed cap `likesPerHour` of `SafetyLimits.limits`. -/
def likesPerHour : Nat := 30

/-- Fixed cap `likesPerDay` of `SafetyLimits.limits`. -/
def likesPerDay : Nat := 200

/-- The `SafetyLimits.counters` record. -/
structure SafetyCounters where
  hourlyComments : Nat
  dailyComments : Nat
  hourlyLikes : Nat
  dailyLikes : Nat
  lastHourReset : Int
  lastDayReset : Int
deriving DecidableEq, Repr

/-- Model of `SafetyLimits.checkResets`, with `Date.now()` passed explicitly. -/
def checkResets (now : Int) (c : SafetyCounters) : SafetyCounters :=
  let c1 :=
    if now - c.lastHourReset > hourMs then
      { c with hourlyComments := 0, hourlyLikes := 0, lastHourReset := now }
    else c
  if now - c1.lastDayReset > dayMs then
    { c1 with dailyComments := 0, dailyLikes := 0, lastDayReset := now }
  else c1

/-- Model of `SafetyLimits.canComment`: reconcile windows, then report whether both
comment counters are under cap.  Returns the reconciled counters alongside
the verdict, since `checkResets` mutates `this.counters`. -/
def canComment (now : Int) (c : SafetyCounters) : SafetyCounters × Bool :=
  let c' := checkResets now c
  (c', decide (c'.hourlyComments < commentsPerHour ∧ c'.dailyComments < commentsPerDay))

/-- Model of `SafetyLimits.canLike`. -/
def canLike (now : Int) (c : SafetyCounters) : SafetyCounters × Bool :=
  let c' := checkResets now c
  (c', decide (c'.hourlyLikes < likesPerHour ∧ c'.dailyLikes < likesPerDay))

/-- Model of `SafetyLimits.recordComment`: increment both comment counters. -/
def recordComment (c : SafetyCounters) : SafetyCounters :=
  { c with hourlyComments := c.hourlyComments + 1, dailyComments := c.dailyComments + 1 }

/-- Model of `SafetyLimits.recordLike`: increment both like counters. -/
def recordLike (c : SafetyCounters) : SafetyCounters :=
  { c with hourlyLikes := c.hourlyLikes + 1, dailyLikes := c.dailyLikes + 1 }

/- ========== DuplicateDetector (engagement-helpers / dom-helpers.js) ========== -/

/-- Model of `Set.prototype.add`: append unless already present (JS sets keep
insertion order, and re-adding an element keeps its original position). -/
def jsSetAdd (l : List String) (x : String) : List String :=
  if x ∈ l then l else l ++ [x]

/-- Model of `new Set(array)`: insert every element in order, dropping duplicates. -/
def jsSetOfList (l : List String) : List String :=
  l.foldl jsSetAdd []

/-- Model of `Map.prototype.set`: overwrite the value at an existing key in place,
otherwise append a fresh entry. -/
def jsMapSet : List (String × Int) → String → Int → List (String × Int)
  | [], k, v => [(k, v)]
  | p :: rest, k, v =>
      if p.1 = k then (k, v) :: rest else p :: jsMapSet rest k v

/-- Model of `Map.prototype.get` (`none` plays the role of `undefined`). -/
def jsMapGet (l : List (String × Int)) (k : String) : Option Int :=
  (l.find? (fun p => p.1 = k)).map (fun p => p.2)

/-- Model of `Map(Object.entries(obj))`: build the map entry by entry. -/
def jsMapOfPairs (l : List (String × Int)) : List (String × Int) :=
  l.foldl (fun m p => jsMapSet m p.1 p.2) []

/-- The normalisation done at the top of `simpleHash`: lower-case, collapse
whitespace runs (`replace(/\s+/g, ' ')`).  Keeping this stage separate makes
the case/whitespace insensitivity of the hash a congruence. -/
def hashKey (l : List Char) : List Char :=
  collapseWs (l.map jsToLower)

/-- One step of the rolling hash: `hash = ((hash << 5) - hash) + char`
followed by `hash = hash & hash`, both 32-bit operations. -/
def hashStep (h : Int) (c : Char) : Int :=
  toInt32 (toInt32 (h * 32) - h + c.toNat)

/-- Model of `DuplicateDetector.simpleHash`: normalise, truncate to 500 characters,
fold the rolling hash from 0 and render it with `toString`. -/
def simpleHash (text : String) : String :=
  toString (((jsTrimList (hashKey text.toList)).take 500).foldl hashStep 0)

/-- The three stores of a `DuplicateDetector` instance. -/
structure DuplicateDetector where
  commentedUrls : List String
  commentedAuthors : List (String × Int)
  contentHashes : List String
deriving DecidableEq, Repr

def DuplicateDetector.empty : DuplicateDetector :=
  ⟨[], [], []⟩

/-- Model of `hasEngagedUrl` (the empty string stands for a JS falsy url). -/
def hasEngagedUrl (d : DuplicateDetector) (url : String) : Bool :=
  if url = "" then false else decide (url ∈ d.commentedUrls)

/-- Model of `hasEngagedAuthor`: false for a falsy name or a falsy (zero) stored
timestamp, otherwise true iff `(now - lastTime) / 3600000 < windowHours`,
expressed by cross-multiplication. -/
def hasEngagedAuthor (d : DuplicateDetector) (now : Int) (authorName : String)
    (windowHours : Int) : Bool :=
  if authorName = "" then false
  else
    match jsMapGet d.commentedAuthors authorName with
    | none => false
    | some lastTime =>
        if lastTime = 0 then false
        else decide (now - lastTime < windowHours * hourMs)

/-- Model of `hasEngagedContent`. -/
def hasEngagedContent (d : DuplicateDetector) (content : String) : Bool :=
  if content = "" then false else decide (simpleHash content ∈ d.contentHashes)

/-- Model of `recordEngagement(url, authorName, content)` at time `now`. -/
def recordEngagement (d : DuplicateDetector) (url authorName content : String)
    (now : Int) : DuplicateDetector :=
  { commentedUrls := if url = "" then d.commentedUrls else jsSetAdd d.commentedUrls url
    commentedAuthors :=
      if authorName = "" then d.commentedAuthors
      else jsMapSet d.commentedAuthors authorName now
    contentHashes :=
      if content = "" then d.contentHashes
      else jsSetAdd d.contentHashes (simpleHash content) }

/-- One week in milliseconds (`7 * 24 * 60 * 60 * 1000`). -/
def weekMs : Int := 7 * 24 * 60 * 60 * 1000

/-- Model of `DuplicateDetector.cleanup` at time `now`: drop author entries older than
one week; cap the URL and content-hash sets at 10,000 entries, keeping the
most recent 5,000 (`Array.from(set).slice(-5000)`). -/
def cleanup (now : Int) (d : DuplicateDetector) : DuplicateDetector :=
  let oneWeekAgo := now - weekMs
  { commentedUrls :=
      if d.commentedUrls.length > 10000 then
        d.commentedUrls.drop (d.commentedUrls.length - 5000)
      else d.commentedUrls
    commentedAuthors := d.commentedAuthors.filter (fun p => ¬ p.2 < oneWeekAgo)
    contentHashes :=
      if d.contentHashes.length > 10000 then
        d.contentHashes.drop (d.contentHashes.length - 5000)
      else d.contentHashes }

/-- The blob read from `chrome.storage.local` in `loadFromStorage`
(`none` = key absent). -/
structure StoredDuplicateData where
  commentedUrls : Option (List String)
  commentedAuthors : Option (List (String × Int))
  contentHashes : Option (List String)
  lastCleanup : Option Int

/-- Model of `DuplicateDetector.loadFromStorage` at time `now`: overwrite each store
that was persisted, then run `cleanup` when more than a week has elapsed
since `lastCleanup` (absent = 0). -/
def loadFromStorage (now : Int) (data : StoredDuplicateData)
    (d : DuplicateDetector) : DuplicateDetector :=
  let d1 : DuplicateDetector :=
    { commentedUrls := match data.commentedUrls with
        | some us => jsSetOfList us
        | none => d.commentedUrls
      commentedAuthors := match data.commentedAuthors with
        | some as => jsMapOfPairs as
        | none => d.commentedAuthors
      contentHashes := match data.contentHashes with
        | some hs => jsSetOfList hs
        | none => d.contentHashes }
  let lastCleanup := (data.lastCleanup.getD 0)
  if now - lastCleanup > weekMs then cleanup now d1 else d1

/- ========== TemplateGenerator (part_000) ========== -/

/-- Model of `TemplateGenerator.setTemplates`: keep a non-empty array filtered down to
its non-blank entries, otherwise fall back to the empty list. -/
def setTemplates (templates : List String) : List String :=
  if templates.length > 0 then
    templates.filter (fun t => t ≠ "" && jsTrim t ≠ "")
  else []

/-- Model of `TemplateGenerator.extractFirstName`: trim, then the first
whitespace-delimited token (empty string when nothing remains). -/
def extractFirstName (fullName : String) : String :=
  let trimmed := jsTrimList fullName.toList
  if trimmed = [] then "" else ⟨trimmed.takeWhile (fun c => ¬ jsIsSpace c)⟩

/-- Model of `TemplateGenerator.processTemplate`.  The 50% comma roll
(`Math.random() > 0.5`) is abstracted into the Boolean `commaFlag`. -/
def processTemplate (template : String) (authorName : String) (commaFlag : Bool) :
    String :=
  let r1 :=
    if jsIncludes template "{author_first}" then
      jsReplaceAll template "{author_first}" (extractFirstName authorName)
    else template
  if jsIncludes r1 "{comma}" then
    jsReplaceAll r1 "{comma}" (if commaFlag then "," else "")
  else r1

/-- The `updateTemplates` message case of `BaseAutoSurfer.listenForMessages`:
replace the generator's templates only when the message names the engine's
own platform. -/
def baseHandleUpdateTemplates (enginePlatform msgPlatform : String)
    (msgTemplates current : List String) : List String :=
  if msgPlatform = enginePlatform then setTemplates msgTemplates else current

/-- The `updateTemplates` message case of `LinkedInAutoSurfer.listenForMessages`:
the templates are replaced unconditionally (no platform comparison). -/
def linkedinHandleUpdateTemplates (_msgPlatform : String)
    (msgTemplates _current : List String) : List String :=
  setTemplates msgTemplates

/-- The `updateTemplates` message case of `FacebookAutoSurfer.listenForMessages`:
also unconditional. -/
def facebookHandleUpdateTemplates (_msgPlatform : String)
    (msgTemplates _current : List String) : List String :=
  setTemplates msgTemplates

/- ========== Settings and the updateSettings message ========== -/

/-- The `this.settings` record of `BaseAutoSurfer` (the LinkedIn engine adds
four filter fields on top of these; its `updateSettings` case is identical). -/
structure Settings where
  scrollSpeedMin : Int
  scrollSpeedMax : Int
  enableAutoLike : Bool
  likeDelay : Int
  likeProbability : Int
  enableAutoComment : Bool
  commentDelay : Int
  commentProbability : Int
  enableSeeMore : Bool
  seeMoreDelay : Int
  postEngagementDelay : Int
deriving DecidableEq, Repr

/-- The defaults assigned in the constructor. -/
def defaultSettings : Settings :=
  { scrollSpeedMin := 2000
    scrollSpeedMax := 4000
    enableAutoLike := false
    likeDelay := 5000
    likeProbability := 70
    enableAutoComment := false
    commentDelay := 8000
    commentProbability := 30
    enableSeeMore := false
    seeMoreDelay := 2000
    postEngagementDelay := 3000 }

/-- A partial settings object carried by an `updateSettings` message
(`none` = field absent from `message.settings`). -/
structure SettingsUpdate where
  scrollSpeedMin : Option Int := none
  scrollSpeedMax : Option Int := none
  enableAutoLike : Option Bool := none
  likeDelay : Option Int := none
  likeProbability : Option Int := none
  enableAutoComment : Option Bool := none
  commentDelay : Option Int := none
  commentProbability : Option Int := none
  enableSeeMore : Option Bool := none
  seeMoreDelay : Option Int := none
  postEngagementDelay : Option Int := none

/-- The `updateSettings` message case, shared verbatim by the base, LinkedIn
and Facebook engines: `this.settings = { ...this.settings, ...message.settings }`.
A spread merge only overwrites the fields present in the message; nothing
else happens before the merged record is saved. -/
def mergeSettings (s : Settings) (u : SettingsUpdate) : Settings :=
  { scrollSpeedMin := u.scrollSpeedMin.getD s.scrollSpeedMin
    scrollSpeedMax := u.scrollSpeedMax.getD s.scrollSpeedMax
    enableAutoLike := u.enableAutoLike.getD s.enableAutoLike
    likeDelay := u.likeDelay.getD s.likeDelay
    likeProbability := u.likeProbability.getD s.likeProbability
    enableAutoComment := u.enableAutoComment.getD s.enableAutoComment
    commentDelay := u.commentDelay.getD s.commentDelay
    commentProbability := u.commentProbability.getD s.commentProbability
    enableSeeMore := u.enableSeeMore.getD s.enableSeeMore
    seeMoreDelay := u.seeMoreDelay.getD s.seeMoreDelay
    postEngagementDelay := u.postEngagementDelay.getD s.postEngagementDelay }

/- ========== The like action (base-surfer.js / part_001 / part_002) ========== -/

/-- One element matched by the like-button selector, as the `likePost`
methods observe it. -/
structure LikeBtn where
  ariaLabel : String
  hasCounterAttr : Bool
  ariaPressed : Bool
  surferLiked : Bool
deriving DecidableEq, Repr

/-- Does a label of length `len` beat the running `shortestLength` (initially
`Infinity`, afterwards the chosen button's label length)? -/
def beatsShortest (acc : Option LikeBtn) (len : Nat) : Bool :=
  match acc with
  | none => true
  | some best => len < best.ariaLabel.length

/-- Candidate selection of `BaseAutoSurfer.likePost` (also
`FacebookAutoSurfer.likePost`): keep the button whose aria-label contains no
colon and is strictly shortest, scanning in DOM order. -/
def selectLikeButtonBase (btns : List LikeBtn) : Option LikeBtn :=
  (btns.foldl
    (fun acc btn =>
      let lbl := btn.ariaLabel
      if ¬ jsIncludes lbl ":" && beatsShortest acc lbl.length then
        some btn
      else acc)
    none)

/-- Candidate selection of `LinkedInAutoSurfer.likePost`: additionally skip
elements carrying a reaction-counter attribute and require a non-empty
aria-label. -/
def selectLikeButtonLinkedIn (btns : List LikeBtn) : Option LikeBtn :=
  (btns.foldl
    (fun acc btn =>
      let lbl := btn.ariaLabel
      if btn.hasCounterAttr then acc
      else if jsIncludes lbl ":" then acc
      else if lbl.length > 0 && beatsShortest acc lbl.length then
        some btn
      else acc)
    none)

/-- Observable outcome of one `likePost` call. -/
structure LikeOutcome where
  clicked : Bool
  buttonMarked : Bool
  postsLikedDelta : Nat
  likeRecorded : Bool
deriving DecidableEq, Repr

def LikeOutcome.none : LikeOutcome :=
  ⟨false, false, 0, false⟩

/-- Model of `BaseAutoSurfer.likePost` (and, with its own selector,
`LinkedInAutoSurfer.likePost`): after choosing a candidate that is neither
pressed nor already clicked this session, consult `canLike()`; abort if
denied, otherwise mark, click, bump `totalPostsLiked` and `recordLike()`.
Returns the outcome together with the safety counters (which `canLike`'s
`checkResets` and `recordLike` both update). -/
def likePostWithSafety (select : List LikeBtn → Option LikeBtn) (now : Int)
    (sc : SafetyCounters) (btns : List LikeBtn) : LikeOutcome × SafetyCounters :=
  match select btns with
  | none => (LikeOutcome.none, sc)
  | some b =>
      if ¬ b.ariaPressed ∧ ¬ b.surferLiked then
        let scOk := canLike now sc
        if ¬ scOk.2 then (LikeOutcome.none, scOk.1)
        else
          ({ clicked := true, buttonMarked := true, postsLikedDelta := 1
             likeRecorded := true }, recordLike scOk.1)
      else (LikeOutcome.none, sc)

def likePostBase (now : Int) (sc : SafetyCounters) (btns : List LikeBtn) :
    LikeOutcome × SafetyCounters :=
  likePostWithSafety selectLikeButtonBase now sc btns

def likePostLinkedIn (now : Int) (sc : SafetyCounters) (btns : List LikeBtn) :
    LikeOutcome × SafetyCounters :=
  likePostWithSafety selectLikeButtonLinkedIn now sc btns

/-- Model of `FacebookAutoSurfer.likePost`: same candidate selection as the base
engine, but the Facebook class owns no `SafetyLimits` instance — the chosen
button is marked and clicked and `totalPostsLiked` incremented without any
`canLike()` consultation or `recordLike()` call. -/
def likePostFacebook (btns : List LikeBtn) : LikeOutcome :=
  match selectLikeButtonBase btns with
  | none => LikeOutcome.none
  | some b =>
      if ¬ b.ariaPressed ∧ ¬ b.surferLiked then
        { clicked := true, buttonMarked := true, postsLikedDelta := 1
          likeRecorded := false }
      else LikeOutcome.none

/- ========== LinkedIn post data extraction (part_001) ========== -/

/-- An abstract LinkedIn post: the texts that the extraction selectors of
`LinkedInAutoSurfer` would return on its DOM subtree (`none` = the selector
matched no element). -/
structure LIPost where
  dataUrn : Option String
  subDescription : Option String
  actorBio : Option String
  supplementaryInfo : Option String
  contentText : Option String
  authorSelTexts : List (Option String)
  ariaHiddenSpans : List String
deriving DecidableEq, Repr

/-- Model of `getPostUrl`: `linkedin://post/${urn}` or null (modelled as `""`). -/
def getPostUrl (p : LIPost) : String :=
  match p.dataUrn with
  | some u => "linkedin://post/" ++ u
  | none => ""

/-- Model of `getPostContent`: trim then collapse whitespace, `''` when absent. -/
def getPostContent (p : LIPost) : String :=
  match p.contentText with
  | some t => ⟨collapseWs (jsTrimList t.toList)⟩
  | none => ""

def digitsToNat (l : List Char) : Nat :=
  l.foldl (fun n c => n * 10 + (c.toNat - 48)) 0

/-- The unit letters `[smhdw]` of the age regex, case-insensitively. -/
def isUnitChar (c : Char) : Bool :=
  let lc := jsToLower c
  lc = 's' || lc = 'm' || lc = 'h' || lc = 'd' || lc = 'w'

/-- Try to match `(\d+)\s*([smhdw])` at the head of `l`.  Digits and unit
letters are disjoint from `\s`, so the regex engine's backtracking can never
produce a match that this greedy reading misses. -/
def tryAgeAt (l : List Char) : Option (Nat × Char) :=
  let digits := l.takeWhile Char.isDigit
  if digits.isEmpty then none
  else
    match (l.dropWhile Char.isDigit).dropWhile jsIsSpace with
    | [] => none
    | u :: _ => if isUnitChar u then some (digitsToNat digits, jsToLower u) else none

/-- Model of `timeText.match(/(\d+)\s*([smhdw])/i)`: the leftmost match. -/
def findAgeMatch : List Char → Option (Nat × Char)
  | [] => none
  | c :: rest =>
      match tryAgeAt (c :: rest) with
      | some r => some r
      | none => findAgeMatch rest

/-- Result of `getPostAge`. -/
structure AgeInfo where
  ageHours : Option ℚ
  isPromoted : Bool
deriving DecidableEq, Repr

/-- Model of `LinkedInAutoSurfer.getPostAge`: parse the `"2h" / "5m" / "1d" / "3w"`
style age indicator and detect the `promoted` marker. -/
def getPostAge (p : LIPost) : AgeInfo :=
  match p.subDescription with
  | none => ⟨none, false⟩
  | some t =>
      let timeText := jsTrimList t.toList
      let isPromoted := containsSub "promoted".toList (timeText.map jsToLower)
      match findAgeMatch timeText with
      | none => ⟨none, isPromoted⟩
      | some (v, u) =>
          let age : ℚ :=
            match u with
            | 's' => (v : ℚ) / 3600
            | 'm' => (v : ℚ) / 60
            | 'h' => (v : ℚ)
            | 'd' => (v : ℚ) * 24
            | _ => (v : ℚ) * 24 * 7
          ⟨some age, isPromoted⟩

/-- Character class `[\d\s,.]` of the company-bio regex. -/
def isBioFillChar (c : Char) : Bool :=
  c.isDigit || jsIsSpace c || c = ',' || c = '.'

/-- Tail of `/^\d[\d\s,.]*followers?$/i` after the leading digit: either the
remainder is exactly `follower`/`followers` (case-insensitively), or the next
character is filler and we continue. -/
def companyBioTail : List Char → Bool
  | [] => false
  | c :: rest =>
      (List.map jsToLower (c :: rest) = "follower".toList ||
       List.map jsToLower (c :: rest) = "followers".toList) ||
      (isBioFillChar c && companyBioTail rest)

/-- Model of `LinkedInAutoSurfer.isCompanyPost`: the actor bio looks like a follower
count, e.g. `1,234 followers`. -/
def isCompanyPost (p : LIPost) : Bool :=
  let bio := (p.actorBio.map jsTrim).getD ""
  match bio.toList with
  | [] => false
  | c :: rest => c.isDigit && companyBioTail rest

/-- Model of `LinkedInAutoSurfer.isFriendActivity`. -/
def isFriendActivity (p : LIPost) : Bool :=
  match p.supplementaryInfo with
  | none => false
  | some t =>
      let low := t.toList.map jsToLower
      containsSub "commented on".toList low ||
      containsSub "liked this".toList low ||
      containsSub "shared this".toList low

/-- Model of `name.length > 1` filter of `getAuthorName`'s selector loop. -/
def firstGoodAuthorSel : List (Option String) → Option String
  | [] => none
  | none :: rest => firstGoodAuthorSel rest
  | some t :: rest =>
      let name := jsTrim t
      if name ≠ "" && name.length > 1 then some name else firstGoodAuthorSel rest

/-- Character class `[A-Za-z\s\-']` of the name-pattern regex. -/
def isNameChar (c : Char) : Bool :=
  ('A' ≤ c && c ≤ 'Z') || ('a' ≤ c && c ≤ 'z') || jsIsSpace c ||
  c = '-' || c = Char.ofNat 39

/-- The `span[aria-hidden="true"]` fallback loop of `getAuthorName`. -/
def firstGoodAuthorSpan : List String → Option String
  | [] => none
  | t :: rest =>
      let text := jsTrim t
      if text ≠ "" && text.length > 2 && text.length < 50 &&
          text.toList.all isNameChar then
        some text
      else firstGoodAuthorSpan rest

/-- Model of `LinkedInAutoSurfer.getAuthorName`: selector loop, span fallback, and the
`'Unknown'` sentinel when every extraction path fails. -/
def getAuthorName (p : LIPost) : String :=
  match firstGoodAuthorSel p.authorSelTexts with
  | some n => n
  | none =>
      match firstGoodAuthorSpan p.ariaHiddenSpans with
      | some n => n
      | none => "Unknown"

/- ========== LinkedIn skip filter and engagement cycle (part_001) ========== -/

/-- The `this.settings` record of `LinkedInAutoSurfer` (numeric knobs as
rationals, since every JS number is a double). -/
structure LISettings where
  scrollSpeedMin : ℚ
  scrollSpeedMax : ℚ
  enableAutoLike : Bool
  likeDelay : ℚ
  likeProbability : ℚ
  enableAutoComment : Bool
  commentDelay : ℚ
  commentProbability : ℚ
  enableSeeMore : Bool
  seeMoreDelay : ℚ
  postEngagementDelay : ℚ
  skipCompanyPages : Bool
  skipFriendActivities : Bool
  timeFilterEnabled : Bool
  maxPostAge : ℚ
deriving DecidableEq, Repr

/-- Model of `LinkedInAutoSurfer.shouldSkipPost`: promoted posts always skip; then the
age filter, the company-page filter and the friend-activity filter, each
gated by its setting. -/
def shouldSkipPost (s : LISettings) (p : LIPost) : Bool :=
  let info := getPostAge p
  if info.isPromoted then true
  else if s.timeFilterEnabled &&
      (match info.ageHours with
       | some age => decide (age > s.maxPostAge)
       | none => false) then true
  else if s.skipCompanyPages && isCompanyPost p then true
  else if s.skipFriendActivities && isFriendActivity p then true
  else false

/-- Model of `this.sessionStats`. -/
structure SessionStats where
  totalPostsViewed : Nat
  totalSeeMoreClicked : Nat
  totalPostsLiked : Nat
  totalComments : Nat
deriving DecidableEq, Repr

/-- What one engagement-cycle iteration does to the selected target post
(steps 3–7 of `startSequentialEngagement`, the target already chosen). -/
structure CycleOutcome where
  markedEngaged : Bool
  postsViewedDelta : Nat
  seeMoreAttempted : Bool
  likeAttempted : Bool
  commentAttempted : Bool
  rescheduled : Bool
deriving DecidableEq, Repr

/-- Steps 3–7 of the LinkedIn `engagementCycle` on the chosen target post.
The two probability rolls (`Math.random() * 100`) are explicit inputs.  A
post failing `shouldSkipPost` is marked engaged and the cycle reschedules
immediately, with no see-more, like or comment attempt and no
`totalPostsViewed` increment. -/
def cycleOnTarget (s : LISettings) (p : LIPost) (likeRoll commentRoll : ℚ) :
    CycleOutcome :=
  if shouldSkipPost s p then
    { markedEngaged := true, postsViewedDelta := 0, seeMoreAttempted := false
      likeAttempted := false, commentAttempted := false, rescheduled := true }
  else
    { markedEngaged := true
      postsViewedDelta := 1
      seeMoreAttempted := s.enableSeeMore
      likeAttempted := s.enableAutoLike && decide (likeRoll < s.likeProbability)
      commentAttempted := s.enableAutoComment && decide (commentRoll < s.commentProbability)
      rescheduled := true }

/-- A post as the scan step sees it: geometric visibility plus the
`data-surfer-engaged` marker. -/
structure ScanPost where
  visible : Bool
  engaged : Bool
  post : LIPost

/-- Step 1 of `engagementCycle` (also re-used inside
`smartScrollUntilNewPost`): posts in the viewport not yet marked engaged. -/
def visibleUnengaged (posts : List ScanPost) : List ScanPost :=
  posts.filter (fun q => q.visible && !q.engaged)

/- ========== LinkedIn comment flow (part_001) ========== -/

/-- A visible+editable comment-input candidate found inside the scope root,
identified by its `getDistance` to the comment button. -/
structure TextAreaCand where
  dist : ℚ
deriving DecidableEq, Repr

/-- Model of `candidates.sort((a, b) => dist(a) - dist(b)); candidates[0]`: the
earliest candidate of minimal distance (JS `sort` is stable). -/
def chooseClosest : List TextAreaCand → Option TextAreaCand
  | [] => none
  | c :: rest =>
      some (rest.foldl (fun b x => if x.dist < b.dist then x else b) c)

/-- What `LinkedInAutoSurfer.addPositiveComment` finds in the DOM:
the comment-open control (with its `data-surfer-commented` marker), whether a
scope root resolves, the input candidates, the focused-element fallback, and
whether `findSubmitButton` succeeds.  `generated` is the string
`templateGenerator.generateComment` returns. -/
structure LICommentEnv where
  commentButton : Option Bool
  scopeOk : Bool
  candidates : List TextAreaCand
  focusedFallback : Bool
  submitFound : Bool
  generated : String
deriving DecidableEq, Repr

/-- DOM side effects performed by one `addPositiveComment` call. -/
structure CommentEffects where
  commentButtonMarked : Bool
  clickedCommentButton : Bool
  typedText : Option String
  clickedSubmit : Bool
deriving DecidableEq, Repr

def CommentEffects.idle : CommentEffects :=
  ⟨false, false, none, false⟩

/-- Model of `LinkedInAutoSurfer.addPositiveComment`: mark and click the comment
control, resolve a scope root, pick the closest editable candidate (falling
back to the focused element), type the generated comment, then click the
submit button if one is found — returning `false` otherwise. -/
def addPositiveCommentLinkedIn (env : LICommentEnv) : Bool × CommentEffects :=
  match env.commentButton with
  | none => (false, CommentEffects.idle)
  | some alreadyMarked =>
      if alreadyMarked then (false, CommentEffects.idle)
      else
        let eff0 : CommentEffects :=
          { commentButtonMarked := true, clickedCommentButton := true
            typedText := none, clickedSubmit := false }
        if ¬ env.scopeOk then (false, eff0)
        else
          let ta : Option TextAreaCand :=
            match chooseClosest env.candidates with
            | some c => some c
            | none => if env.focusedFallback then some ⟨0⟩ else none
          match ta with
          | none => (false, eff0)
          | some _ =>
              let eff1 := { eff0 with typedText := some env.generated }
              if env.submitFound then (true, { eff1 with clickedSubmit := true })
              else (false, eff1)

/-- Why the LinkedIn `commentPost` aborts before composing. -/
inductive CommentAbort
  | urlDup
  | authorDup
  | contentDup
deriving DecidableEq, Repr

/-- The duplicate-check block of `LinkedInAutoSurfer.commentPost`.  The
author-cooldown check runs only when `getAuthorName` did not return its
`'Unknown'` sentinel; the URL and content-hash checks run unconditionally. -/
def linkedinDuplicateGate (d : DuplicateDetector) (now : Int) (p : LIPost) :
    Option CommentAbort :=
  let postUrl := getPostUrl p
  let authorName := getAuthorName p
  let content := getPostContent p
  if hasEngagedUrl d postUrl then some .urlDup
  else if authorName ≠ "Unknown" && hasEngagedAuthor d now authorName 24 then
    some .authorDup
  else if hasEngagedContent d content then some .contentDup
  else none

/-- Engine-owned state touched by the LinkedIn comment action. -/
structure CommentState where
  stats : SessionStats
  safety : SafetyCounters
  detector : DuplicateDetector
deriving DecidableEq, Repr

/-- Model of `LinkedInAutoSurfer.commentPost`: safety gate, duplicate gate, then
`addPositiveComment`; on success bump `totalComments`, `recordComment()` and
`recordEngagement(...)` with the freshly extracted identifiers. -/
def commentPostLinkedIn (now : Int) (st : CommentState) (p : LIPost)
    (env : LICommentEnv) : CommentState × CommentEffects :=
  let scOk := canComment now st.safety
  if ¬ scOk.2 then ({ st with safety := scOk.1 }, CommentEffects.idle)
  else
    match linkedinDuplicateGate st.detector now p with
    | some _ => ({ st with safety := scOk.1 }, CommentEffects.idle)
    | none =>
        let res := addPositiveCommentLinkedIn env
        if res.1 then
          ({ stats := { st.stats with totalComments := st.stats.totalComments + 1 }
             safety := recordComment scOk.1
             detector := recordEngagement st.detector (getPostUrl p)
               (getAuthorName p) (getPostContent p) now },
           res.2)
        else ({ st with safety := scOk.1 }, res.2)

/- ========================================================================
   Theorems for the claims
   ======================================================================== -/

set_option maxRecDepth 16000

/-- Concrete `updateSettings` payload submitting `scrollSpeedMin = 5000 >
scrollSpeedMax = 1000`. -/
def badSpeedUpdate : SettingsUpdate :=
  { scrollSpeedMin := some 5000, scrollSpeedMax := some 1000 }

/-- Claim C1 (counterexample): submitting an `updateSettings` message with
`scrollSpeedMin = 5000 > scrollSpeedMax = 1000` to an engine holding the
default settings leaves `scrollSpeedMin > scrollSpeedMax` — the engine does
not reconcile the violation, so the claimed invariant fails. -/
theorem C1_counterexample :
    ¬ ((mergeSettings defaultSettings badSpeedUpdate).scrollSpeedMin ≤
       (mergeSettings defaultSettings badSpeedUpdate).scrollSpeedMax) := by
  decide

/-- Claim C1 (amended): the `updateSettings` handler merges the message into
the current settings wholesale and performs no reconciliation; whenever the
message submits `scrollSpeedMin = a` and `scrollSpeedMax = b` with `b < a`,
the engine's settings afterwards have exactly those values, violating
`scrollSpeedMin ≤ scrollSpeedMax`.  (The popup UI clamps its sliders before
sending, but the engine itself never raises the max.) -/
theorem C1_merge_keeps_violation (s : Settings) (u : SettingsUpdate) (a b : Int)
    (hmin : u.scrollSpeedMin = some a) (hmax : u.scrollSpeedMax = some b)
    (hab : b < a) :
    (mergeSettings s u).scrollSpeedMin = a ∧
    (mergeSettings s u).scrollSpeedMax = b ∧
    ¬ (mergeSettings s u).scrollSpeedMin ≤ (mergeSettings s u).scrollSpeedMax := by
  refine ⟨by simp [mergeSettings, hmin], by simp [mergeSettings, hmax], ?_⟩
  simp [mergeSettings, hmin, hmax]
  omega

/-- Claim C1 witness: the amended statement at the concrete payload. -/
theorem C1_witness :
    badSpeedUpdate.scrollSpeedMin = some 5000 ∧
    badSpeedUpdate.scrollSpeedMax = some 1000 ∧
    (1000 : Int) < 5000 ∧
    (mergeSettings defaultSettings badSpeedUpdate).scrollSpeedMin = 5000 :=
  ⟨rfl, rfl, by decide,
    (C1_merge_keeps_violation defaultSettings badSpeedUpdate 5000 1000 rfl rfl
      (by decide)).1⟩

/-- Claim C7 (counterexample): the LinkedIn engine's `updateTemplates` case
replaces the templates even when the message names a different platform
(`facebook` ≠ `linkedin`), so the message is not ignored on a mismatch. -/
theorem C7_counterexample :
    linkedinHandleUpdateTemplates "facebook" ["Fresh take!"] ["old one"] =
      ["Fresh take!"] ∧
    (["Fresh take!"] : List String) ≠ ["old one"] := by
  constructor
  · decide
  · decide

/-- Claim C7 (amended): only the shared base engine guards `updateTemplates`
with a platform comparison — it replaces the templates when the message's
platform matches its own and ignores the message otherwise; the standalone
LinkedIn and Facebook engines replace their templates unconditionally, for
every named platform. -/
theorem C7_update_templates (enginePlatform msgPlatform : String)
    (ts current : List String) :
    (msgPlatform = enginePlatform →
      baseHandleUpdateTemplates enginePlatform msgPlatform ts current =
        setTemplates ts) ∧
    (msgPlatform ≠ enginePlatform →
      baseHandleUpdateTemplates enginePlatform msgPlatform ts current = current) ∧
    linkedinHandleUpdateTemplates msgPlatform ts current = setTemplates ts ∧
    facebookHandleUpdateTemplates msgPlatform ts current = setTemplates ts := by
  refine ⟨fun h => by simp [baseHandleUpdateTemplates, h],
    fun h => by simp [baseHandleUpdateTemplates, h], rfl, rfl⟩

/-- Claim C7 witness: the amended statement at concrete platforms. -/
theorem C7_witness :
    ("facebook" : String) ≠ "linkedin" ∧
    baseHandleUpdateTemplates "linkedin" "facebook" ["Fresh take!"] ["old one"] =
      ["old one"] :=
  ⟨by decide,
    (C7_update_templates "linkedin" "facebook" ["Fresh take!"] ["old one"]).2.1
      (by decide)⟩

/-- Claim C9: `processTemplate "Hi {author_first}{comma} thanks"` with author
`"Jane Doe"` yields `"Hi Jane, thanks"` or `"Hi Jane thanks"` according to
the comma roll (so it always matches `/^Hi Jane,? thanks$/`); with author
`""` it yields `"Hi , thanks"` or `"Hi  thanks"` (matching
`/^Hi ,? thanks$/`); and `extractFirstName` returns `"Jane"` on
`"  Jane   Doe "` and `""` on `""`. -/
theorem C9_template_placeholders :
    (∀ b : Bool,
      processTemplate "Hi {author_first}{comma} thanks" "Jane Doe" b =
        (if b then "Hi Jane, thanks" else "Hi Jane thanks")) ∧
    (∀ b : Bool,
      processTemplate "Hi {author_first}{comma} thanks" "" b =
        (if b then "Hi , thanks" else "Hi  thanks")) ∧
    extractFirstName "  Jane   Doe " = "Jane" ∧
    extractFirstName "" = "" := by
  refine ⟨?_, ?_, by decide, by decide⟩ <;> (intro b; cases b <;> decide)

/-- Claim C9 witness: the comma branch at a concrete roll. -/
theorem C9_witness :
    processTemplate "Hi {author_first}{comma} thanks" "Jane Doe" true =
      "Hi Jane, thanks" := by
  have h := C9_template_placeholders.1 true
  simpa using h

/-- The single like control of the Facebook counterexample page. -/
def likeBtnC2 : LikeBtn :=
  { ariaLabel := "Like", hasCounterAttr := false, ariaPressed := false
    surferLiked := false }

/-- Safety counters sitting exactly at the 30-likes-per-hour cap, inside the
current hourly and daily windows. -/
def cappedCounters : SafetyCounters :=
  { hourlyComments := 0, dailyComments := 0, hourlyLikes := 30, dailyLikes := 0
    lastHourReset := 0, lastDayReset := 0 }

/-- Claim C2 (counterexample): with the hourly like counter at its cap —
`canLike()` answers `false` — the Facebook engine's `likePost` still marks
the chosen control, performs the click and increments `totalPostsLiked`,
recording nothing with the Safety Limiter: the Facebook engine never
consults it. -/
theorem C2_counterexample :
    (canLike 10 cappedCounters).2 = false ∧
    likePostFacebook [likeBtnC2] =
      { clicked := true, buttonMarked := true, postsLikedDelta := 1
        likeRecorded := false } := by
  constructor
  · decide
  · decide

/-- Claim C2 (amended): in the base and LinkedIn engines the claim holds as
stated — once a candidate like control is chosen that is neither pressed nor
already clicked this session, `canLike()` is consulted; a denial aborts with
no click, no marking, no increment and no recording (the counters keeping
only the `checkResets` reconciliation), while an approval marks the control,
clicks it, increments `totalPostsLiked` by one and records the like.  The
Facebook engine, however, performs the marked click and the increment
without consulting or recording with the Safety Limiter at all. -/
theorem C2_like_action (now : Int) (sc : SafetyCounters) (btns : List LikeBtn)
    (b : LikeBtn) (hp : b.ariaPressed = false) (hm : b.surferLiked = false) :
    (selectLikeButtonBase btns = some b →
      (((canLike now sc).2 = false →
        likePostBase now sc btns = (LikeOutcome.none, (canLike now sc).1)) ∧
       ((canLike now sc).2 = true →
        likePostBase now sc btns =
          ({ clicked := true, buttonMarked := true, postsLikedDelta := 1
             likeRecorded := true }, recordLike (canLike now sc).1)))) ∧
    (selectLikeButtonLinkedIn btns = some b →
      (((canLike now sc).2 = false →
        likePostLinkedIn now sc btns = (LikeOutcome.none, (canLike now sc).1)) ∧
       ((canLike now sc).2 = true →
        likePostLinkedIn now sc btns =
          ({ clicked := true, buttonMarked := true, postsLikedDelta := 1
             likeRecorded := true }, recordLike (canLike now sc).1)))) ∧
    (selectLikeButtonBase btns = some b →
      likePostFacebook btns =
        { clicked := true, buttonMarked := true, postsLikedDelta := 1
          likeRecorded := false }) := by
  refine ⟨fun hsel => ⟨fun hno =>
      by simp [likePostBase, likePostWithSafety, hsel, hp, hm, hno],
    fun hyes =>
      by simp [likePostBase, likePostWithSafety, hsel, hp, hm, hyes]⟩,
    fun hsel => ⟨fun hno =>
      by simp [likePostLinkedIn, likePostWithSafety, hsel, hp, hm, hno],
    fun hyes =>
      by simp [likePostLinkedIn, likePostWithSafety, hsel, hp, hm, hyes]⟩,
    fun hsel => by simp [likePostFacebook, hsel, hp, hm]⟩

/-- Claim C2 witness: the base engine aborting at the cap, at concrete
inputs. -/
theorem C2_witness :
    likeBtnC2.ariaPressed = false ∧ likeBtnC2.surferLiked = false ∧
    likePostBase 10 cappedCounters [likeBtnC2] =
      (LikeOutcome.none, (canLike 10 cappedCounters).1) :=
  ⟨rfl, rfl,
    ((C2_like_action 10 cappedCounters [likeBtnC2] likeBtnC2 rfl rfl).1
      (by decide)).1 (by decide)⟩

/-- Claim C3: `canLike()`/`canComment()` first reconcile expired windows —
when more than an hour (resp. a day) has elapsed since the recorded window
start, the hourly (resp. daily) counts become 0 and the window start
advances to `now`, and otherwise they are untouched — and then answer true
iff the reconciled hourly and daily counts are under their caps (30/200 for
likes, 10/50 for comments).  Consequently a counter at its cap forces a
`false` answer while its window is still open, and once the window
boundaries have elapsed the answer is `true` again with the counters reset
to 0. -/
theorem C3_safety_limiter (now : Int) (c : SafetyCounters) :
    ((canLike now c).1 = checkResets now c ∧
     (canComment now c).1 = checkResets now c)
    ∧ ((canLike now c).2 = true ↔
        ((checkResets now c).hourlyLikes < likesPerHour ∧
         (checkResets now c).dailyLikes < likesPerDay))
    ∧ ((canComment now c).2 = true ↔
        ((checkResets now c).hourlyComments < commentsPerHour ∧
         (checkResets now c).dailyComments < commentsPerDay))
    ∧ (now - c.lastHourReset > hourMs →
        (checkResets now c).hourlyLikes = 0 ∧
        (checkResets now c).hourlyComments = 0 ∧
        (checkResets now c).lastHourReset = now)
    ∧ (now - c.lastDayReset > dayMs →
        (checkResets now c).dailyLikes = 0 ∧
        (checkResets now c).dailyComments = 0 ∧
        (checkResets now c).lastDayReset = now)
    ∧ (¬ now - c.lastHourReset > hourMs →
        (checkResets now c).hourlyLikes = c.hourlyLikes ∧
        (checkResets now c).hourlyComments = c.hourlyComments ∧
        (checkResets now c).lastHourReset = c.lastHourReset)
    ∧ (¬ now - c.lastDayReset > dayMs →
        (checkResets now c).dailyLikes = c.dailyLikes ∧
        (checkResets now c).dailyComments = c.dailyComments ∧
        (checkResets now c).lastDayReset = c.lastDayReset)
    ∧ (likesPerHour ≤ c.hourlyLikes → ¬ now - c.lastHourReset > hourMs →
        (canLike now c).2 = false)
    ∧ (likesPerDay ≤ c.dailyLikes → ¬ now - c.lastDayReset > dayMs →
        (canLike now c).2 = false)
    ∧ (commentsPerHour ≤ c.hourlyComments → ¬ now - c.lastHourReset > hourMs →
        (canComment now c).2 = false)
    ∧ (commentsPerDay ≤ c.dailyComments → ¬ now - c.lastDayReset > dayMs →
        (canComment now c).2 = false)
    ∧ (now - c.lastHourReset > hourMs → now - c.lastDayReset > dayMs →
        (canLike now c).2 = true ∧ (canComment now c).2 = true ∧
        (checkResets now c).hourlyLikes = 0 ∧
        (checkResets now c).dailyLikes = 0 ∧
        (checkResets now c).hourlyComments = 0 ∧
        (checkResets now c).dailyComments = 0) := by
  unfold canLike canComment checkResets
  by_cases h1 : now - c.lastHourReset > hourMs <;>
    by_cases h2 : now - c.lastDayReset > dayMs
  all_goals
    simp [h1, h2, likesPerHour, likesPerDay, commentsPerHour, commentsPerDay]
  all_goals omega

/-- Claim C3 witness: at the concrete capped state inside an open window,
`canLike` answers `false`. -/
theorem C3_witness :
    likesPerHour ≤ cappedCounters.hourlyLikes ∧
    ¬ (10 : Int) - cappedCounters.lastHourReset > hourMs ∧
    (canLike 10 cappedCounters).2 = false :=
  ⟨by decide, by decide,
    (C3_safety_limiter 10 cappedCounters).2.2.2.2.2.2.2.1 (by decide) (by decide)⟩

/-- Adding an element to a JS set makes it a member. -/
lemma mem_jsSetAdd_self (l : List String) (x : String) : x ∈ jsSetAdd l x := by
  unfold jsSetAdd
  split
  · assumption
  · simp

/-- Looking up a key immediately after `Map.set` returns the new value. -/
lemma jsMapGet_set_self (l : List (String × Int)) (k : String) (v : Int) :
    jsMapGet (jsMapSet l k v) k = some v := by
  induction l with
  | nil => simp [jsMapSet, jsMapGet]
  | cons p rest ih =>
      by_cases h : p.1 = k
      · simp [jsMapSet, h, jsMapGet]
      · simpa [jsMapSet, h, jsMapGet, List.find?] using ih

/-- The `simpleHash` value factors through the lower-case whitespace-collapsed key. -/
lemma simpleHash_congr {t t' : String}
    (h : hashKey t.toList = hashKey t'.toList) : simpleHash t = simpleHash t' := by
  unfold simpleHash
  rw [h]

/-- Claim C5: after `recordEngagement(url, author, text)` at time `now`
(with non-empty arguments and a positive clock), `hasEngagedUrl(url)` is
true; `hasEngagedAuthor(author, 24)` is true at `now` and false at any time
more than 24 hours later; `hasEngagedContent` is true for every non-empty
text with the same lower-cased whitespace-collapsed key (the hash is a
function of that key, hence deterministic and case/whitespace-insensitive);
and concretely `"Great post!"` and `"great   post!"` hash identically. -/
theorem C5_duplicate_roundtrip (d : DuplicateDetector) (url author text : String)
    (now t2 : Int) (hu : url ≠ "") (ha : author ≠ "") (ht : text ≠ "")
    (hnow : 0 < now) (hlate : t2 - now > 24 * hourMs) :
    hasEngagedUrl (recordEngagement d url author text now) url = true ∧
    hasEngagedAuthor (recordEngagement d url author text now) now author 24 = true ∧
    hasEngagedAuthor (recordEngagement d url author text now) t2 author 24 = false ∧
    (∀ t', t' ≠ "" → hashKey t'.toList = hashKey text.toList →
      hasEngagedContent (recordEngagement d url author text now) t' = true) ∧
    simpleHash "Great post!" = simpleHash "great   post!" := by
  have hget : jsMapGet (jsMapSet d.commentedAuthors author now) author = some now :=
    jsMapGet_set_self _ _ _
  refine ⟨?_, ?_, ?_, ?_, by decide⟩
  · simp [hasEngagedUrl, recordEngagement, hu, mem_jsSetAdd_self]
  · have hne : now ≠ 0 := by omega
    simp [hasEngagedAuthor, recordEngagement, ha, hget, hne, hourMs]
  · simp [hasEngagedAuthor, recordEngagement, ha, hget, hourMs]
    intro h0
    have h24 : (24 : Int) * hourMs = 86400000 := by decide
    omega
  · intro t' ht' hkey
    have hsame : simpleHash t' = simpleHash text := simpleHash_congr hkey
    simp [hasEngagedContent, recordEngagement, ht, ht', hsame, mem_jsSetAdd_self]

/-- Claim C5 witness: the round trip at concrete inputs. -/
theorem C5_witness :
    ("u" : String) ≠ "" ∧ ("Ann" : String) ≠ "" ∧
    ("Great post!" : String) ≠ "" ∧ (0 : Int) < 5 ∧
    hasEngagedUrl
      (recordEngagement DuplicateDetector.empty "u" "Ann" "Great post!" 5) "u" =
      true :=
  ⟨by decide, by decide, by decide, by decide,
    (C5_duplicate_roundtrip DuplicateDetector.empty "u" "Ann" "Great post!" 5
      (5 + 24 * hourMs + 1) (by decide) (by decide) (by decide) (by decide)
      (by decide)).1⟩

/-- Claim C6: a LinkedIn post whose age indicator parses to 96 hours, under
`timeFilterEnabled = true` and `maxPostAge = 72`, is classified skippable by
`shouldSkipPost`; the cycle then marks the skipped post engaged and restarts
immediately — no see-more, like or comment action is attempted and
`totalPostsViewed` is not incremented — and the scan step never selects a
post already marked engaged, so it is never revisited. -/
theorem C6_skip_old_post (s : LISettings) (p : LIPost) (likeRoll commentRoll : ℚ)
    (hage : (getPostAge p).ageHours = some 96)
    (hprom : (getPostAge p).isPromoted = false)
    (htf : s.timeFilterEnabled = true) (hmax : s.maxPostAge = 72) :
    shouldSkipPost s p = true ∧
    cycleOnTarget s p likeRoll commentRoll =
      { markedEngaged := true, postsViewedDelta := 0, seeMoreAttempted := false
        likeAttempted := false, commentAttempted := false, rescheduled := true } ∧
    (∀ posts q, q ∈ visibleUnengaged posts → q.engaged = false) := by
  have hskip : shouldSkipPost s p = true := by
    simp only [shouldSkipPost, hage, hprom, htf, hmax]
    norm_num
  refine ⟨hskip, by simp [cycleOnTarget, hskip], ?_⟩
  intro posts q hq
  simp only [visibleUnengaged, List.mem_filter] at hq
  have := hq.2
  simp only [Bool.and_eq_true, Bool.not_eq_true'] at this
  exact this.2

/-- A 96-hour-old LinkedIn post for the witness. -/
def oldPost : LIPost :=
  { dataUrn := some "urn:li:activity:1"
    subDescription := some "96h"
    actorBio := none
    supplementaryInfo := none
    contentText := some "Old news"
    authorSelTexts := []
    ariaHiddenSpans := [] }

/-- LinkedIn settings with the time filter active at 72 hours (the engine's
defaults for the filtering block). -/
def timeFilterSettings : LISettings :=
  { scrollSpeedMin := 2000, scrollSpeedMax := 4000
    enableAutoLike := true, likeDelay := 5000, likeProbability := 70
    enableAutoComment := true, commentDelay := 8000, commentProbability := 30
    enableSeeMore := true, seeMoreDelay := 2000, postEngagementDelay := 3000
    skipCompanyPages := true, skipFriendActivities := true
    timeFilterEnabled := true, maxPostAge := 72 }

/-- Claim C6 witness: the `"96h"` indicator parses to 96 hours and the post
is skipped under the 72-hour filter. -/
theorem C6_witness :
    (getPostAge oldPost).ageHours = some 96 ∧
    (getPostAge oldPost).isPromoted = false ∧
    timeFilterSettings.timeFilterEnabled = true ∧
    timeFilterSettings.maxPostAge = 72 ∧
    shouldSkipPost timeFilterSettings oldPost = true :=
  ⟨by decide, by decide, rfl, by decide,
    (C6_skip_old_post timeFilterSettings oldPost 0 0 (by decide) (by decide) rfl
      (by decide)).1⟩

/-- Concrete comment environment in which everything up to the submit search
succeeds but no submit control exists. -/
def noSubmitEnv : LICommentEnv :=
  { commentButton := some false, scopeOk := true, candidates := [⟨1⟩]
    focusedFallback := false, submitFound := false
    generated := "Great insight!" }

/-- Claim C4 (counterexample): when `addPositiveComment` finds no submit
control it does return `false`, but the attempt is not side-effect free: the
comment control keeps its fresh `data-surfer-commented` marker (and the
typed comment text remains in the input), so the claim that no effect of the
attempt remains is false at this input. -/
theorem C4_counterexample :
    (addPositiveCommentLinkedIn noSubmitEnv).1 = false ∧
    (addPositiveCommentLinkedIn noSubmitEnv).2 ≠ CommentEffects.idle ∧
    (addPositiveCommentLinkedIn noSubmitEnv).2.commentButtonMarked = true := by
  refine ⟨by decide, by decide, by decide⟩

/-- Claim C4 (amended): when `addPositiveComment` cannot locate a submit
control after typing it returns `false`, and the engine-owned state is
untouched — `totalComments` is not incremented, nothing is recorded with the
Safety Limiter (beyond the `canComment` window reconciliation) or the
Duplicate Detector; however, the comment control remains marked
`data-surfer-commented` and the typed comment text remains in the input
surface. -/
theorem C4_no_submit_effects (now : Int) (st : CommentState) (p : LIPost)
    (env : LICommentEnv)
    (hbtn : env.commentButton = some false)
    (hscope : env.scopeOk = true)
    (hta : env.candidates ≠ [] ∨ env.focusedFallback = true)
    (hsub : env.submitFound = false)
    (hok : (canComment now st.safety).2 = true)
    (hgate : linkedinDuplicateGate st.detector now p = none) :
    addPositiveCommentLinkedIn env =
      (false,
        { commentButtonMarked := true, clickedCommentButton := true
          typedText := some env.generated, clickedSubmit := false }) ∧
    (commentPostLinkedIn now st p env).1.stats = st.stats ∧
    (commentPostLinkedIn now st p env).1.detector = st.detector ∧
    (commentPostLinkedIn now st p env).1.safety = (canComment now st.safety).1 ∧
    (commentPostLinkedIn now st p env).2 = (addPositiveCommentLinkedIn env).2 := by
  have hadd : addPositiveCommentLinkedIn env =
      (false,
        { commentButtonMarked := true, clickedCommentButton := true
          typedText := some env.generated, clickedSubmit := false }) := by
    rcases hta with hne | hfb
    · cases hcand : env.candidates with
      | nil => exact absurd hcand hne
      | cons c rest =>
          simp [addPositiveCommentLinkedIn, hbtn, hscope, hsub, hcand,
            chooseClosest]
    · cases hcand : env.candidates with
      | nil =>
          simp [addPositiveCommentLinkedIn, hbtn, hscope, hsub, hcand,
            chooseClosest, hfb]
      | cons c rest =>
          simp [addPositiveCommentLinkedIn, hbtn, hscope, hsub, hcand,
            chooseClosest]
  refine ⟨hadd, ?_, ?_, ?_, ?_⟩ <;>
    simp [commentPostLinkedIn, hok, hgate, hadd]

/-- Claim C4 witness: the amended statement at the concrete environment. -/
theorem C4_witness :
    noSubmitEnv.commentButton = some false ∧
    noSubmitEnv.scopeOk = true ∧
    noSubmitEnv.submitFound = false ∧
    (commentPostLinkedIn 5
      ⟨⟨0, 0, 0, 0⟩, ⟨0, 0, 0, 0, 0, 0⟩, DuplicateDetector.empty⟩
      oldPost noSubmitEnv).1.stats = ⟨0, 0, 0, 0⟩ :=
  ⟨rfl, rfl, rfl,
    (C4_no_submit_effects 5
      ⟨⟨0, 0, 0, 0⟩, ⟨0, 0, 0, 0, 0, 0⟩, DuplicateDetector.empty⟩
      oldPost noSubmitEnv rfl rfl (Or.inl (by decide)) rfl (by decide)
      (by decide)).2.1⟩

/-- Claim C10: when author-name extraction fails (`getAuthorName` returns
its `'Unknown'` sentinel), the LinkedIn comment action bypasses the 24-hour
author-cooldown check entirely — the duplicate gate can never abort for the
author — while the URL and content-hash checks still run exactly as before;
in particular with a fresh URL and fresh content the gate lets the comment
attempt proceed regardless of any recent author engagement in the
detector. -/
theorem C10_unknown_author_bypass (d : DuplicateDetector) (now : Int) (p : LIPost)
    (hname : getAuthorName p = "Unknown") :
    linkedinDuplicateGate d now p ≠ some CommentAbort.authorDup ∧
    (hasEngagedUrl d (getPostUrl p) = true →
      linkedinDuplicateGate d now p = some CommentAbort.urlDup) ∧
    (hasEngagedUrl d (getPostUrl p) = false →
      hasEngagedContent d (getPostContent p) = true →
      linkedinDuplicateGate d now p = some CommentAbort.contentDup) ∧
    (hasEngagedUrl d (getPostUrl p) = false →
      hasEngagedContent d (getPostContent p) = false →
      linkedinDuplicateGate d now p = none) := by
  refine ⟨?_,
    fun hu => by simp [linkedinDuplicateGate, hname, hu],
    fun hu hc => by simp [linkedinDuplicateGate, hname, hu, hc],
    fun hu hc => by simp [linkedinDuplicateGate, hname, hu, hc]⟩
  by_cases hu : hasEngagedUrl d (getPostUrl p) = true
  · simp [linkedinDuplicateGate, hname, hu]
  · by_cases hc : hasEngagedContent d (getPostContent p) = true <;>
      simp_all [linkedinDuplicateGate, hname]

/-- A LinkedIn post on which every author-extraction path fails. -/
def unknownAuthorPost : LIPost :=
  { dataUrn := some "urn:li:activity:2"
    subDescription := some "2h"
    actorBio := none
    supplementaryInfo := none
    contentText := some "Hello world"
    authorSelTexts := []
    ariaHiddenSpans := [] }

/-- A detector that engaged author `Unknown` very recently. -/
def recentAuthorDetector : DuplicateDetector :=
  ⟨[], [("Unknown", 5)], []⟩

/-- Claim C10 witness: extraction fails on the concrete post, the detector
reports a recent author engagement, and the gate still lets the comment
proceed. -/
theorem C10_witness :
    getAuthorName unknownAuthorPost = "Unknown" ∧
    hasEngagedAuthor recentAuthorDetector 6 "Unknown" 24 = true ∧
    linkedinDuplicateGate recentAuthorDetector 6 unknownAuthorPost = none :=
  ⟨by decide, by decide,
    (C10_unknown_author_bypass recentAuthorDetector 6 unknownAuthorPost
      (by decide)).2.2.2 (by decide) (by decide)⟩

/-- Accumulator lemma for `new Set(array)` on duplicate-free input. -/
lemma foldl_jsSetAdd_nodup (l : List String) :
    ∀ acc : List String, (∀ a ∈ l, a ∉ acc) → l.Nodup →
      l.foldl jsSetAdd acc = acc ++ l := by
  induction l with
  | nil => intro acc _ _; simp
  | cons x rest ih =>
      intro acc hdisj hnd
      have hx : x ∉ acc := hdisj x (by simp)
      have hstep : jsSetAdd acc x = acc ++ [x] := by simp [jsSetAdd, hx]
      have hnd' := List.nodup_cons.mp hnd
      rw [List.foldl_cons, hstep, ih (acc ++ [x]) ?_ hnd'.2]
      · simp
      · intro a ha
        simp only [List.mem_append, List.mem_singleton]
        rintro (h1 | h2)
        · exact hdisj a (by simp [ha]) h1
        · exact hnd'.1 (h2 ▸ ha)

/-- Building `new Set(array)` from a duplicate-free array keeps it unchanged. -/
lemma jsSetOfList_nodup (l : List String) (h : l.Nodup) : jsSetOfList l = l := by
  simpa using foldl_jsSetAdd_nodup l [] (by simp) h

/-- Claim C8: loading the detector with 10,001 distinct stored URLs and a
`lastCleanup` more than 7 days old triggers `cleanup`, after which exactly
5,000 URLs remain — the most recently added suffix of the stored list;
`cleanup` simultaneously drops author entries older than 7 days and applies
the same 10,000-entry cap with most-recent-5,000 retention to the
content-hash store. -/
theorem C8_weekly_cleanup (now lc : Int) (us hs : List String)
    (as : List (String × Int)) (hnd : us.Nodup) (hlen : us.length = 10001)
    (hweek : now - lc > weekMs) :
    (loadFromStorage now ⟨some us, some as, some hs, some lc⟩
        DuplicateDetector.empty).commentedUrls = us.drop 5001 ∧
    (loadFromStorage now ⟨some us, some as, some hs, some lc⟩
        DuplicateDetector.empty).commentedUrls.length = 5000 ∧
    (loadFromStorage now ⟨some us, some as, some hs, some lc⟩
        DuplicateDetector.empty).commentedAuthors =
      (jsMapOfPairs as).filter (fun q => ¬ q.2 < now - weekMs) ∧
    (loadFromStorage now ⟨some us, some as, some hs, some lc⟩
        DuplicateDetector.empty).contentHashes =
      (if (jsSetOfList hs).length > 10000 then
        (jsSetOfList hs).drop ((jsSetOfList hs).length - 5000)
      else jsSetOfList hs) := by
  have hset : jsSetOfList us = us := jsSetOfList_nodup us hnd
  refine ⟨?_, ?_, ?_, ?_⟩ <;>
    simp [loadFromStorage, cleanup, hweek, hset, hlen]

/-- URL pool for the C8 witness: 10,001 pairwise distinct strings. -/
def urlW (n : Nat) : String :=
  ⟨List.replicate n 'a'⟩

def urlsW : List String :=
  (List.range 10001).map urlW

lemma urlW_injective : Function.Injective urlW := by
  intro m n h
  have h2 : List.replicate m 'a' = List.replicate n 'a' := congrArg String.data h
  have h3 := congrArg List.length h2
  simpa using h3

lemma urlsW_nodup : urlsW.Nodup :=
  (List.nodup_range 10001).map urlW_injective

lemma urlsW_length : urlsW.length = 10001 := by
  simp [urlsW]

/-- Claim C8 witness: the cleanup at a concrete over-full store. -/
theorem C8_witness :
    urlsW.Nodup ∧ urlsW.length = 10001 ∧ (weekMs + 1 : Int) - 0 > weekMs ∧
    (loadFromStorage (weekMs + 1) ⟨some urlsW, some [], some [], some 0⟩
        DuplicateDetector.empty).commentedUrls.length = 5000 :=
  ⟨urlsW_nodup, urlsW_length, by omega,
    (C8_weekly_cleanup (weekMs + 1) 0 urlsW [] [] urlsW_nodup urlsW_length
      (by omega)).2.1⟩
